import Mathlib

/-!
Verification of the sparkline rendering core of crypto-chart-generator
(src/lib/svg.ts).  The numeric model uses exact rationals; the string
output is modelled character-for-character after the source templates.
-/

set_option maxRecDepth 10000

namespace CryptoChart

/-- Pixel-space coordinate derived from one sample (interface Point). -/
structure Point where
  x : ℚ
  y : ℚ
  deriving DecidableEq

def defaultPt : Point := ⟨0, 0⟩

/-- interface SparklineOptions; optional fields model the `?` options,
`none` standing for an absent (undefined) option so that the
destructuring defaults of the source apply exactly as in JS. -/
structure SparklineOptions where
  width : ℚ
  height : ℚ
  fill : Bool
  strokeWidth : Option ℚ := none
  padding : Option ℚ := none
  upColor : Option String := none
  downColor : Option String := none
  customColor : Option String := none
  smooth : Option Bool := none
  smoothTension : Option ℚ := none
  showKnob : Option Bool := none
  knobSize : Option ℚ := none
  backgroundColor : Option String := none
  fadeEdges : Option Bool := none
  fadeAmount : Option ℚ := none

/-- interface SparklineResult. -/
structure SparklineResult where
  svg : String
  isUp : Bool
  deriving DecidableEq

/-- The four `Math.random`-generated reference identifiers of one render,
made explicit inputs of the model (gradientId, maskId, fadeLeftId,
fadeRightId). -/
structure SvgIds where
  gradientId : String
  maskId : String
  fadeLeftId : String
  fadeRightId : String

/-! Destructuring defaults of generateSparklineSVG. -/

def oStrokeWidth (o : SparklineOptions) : ℚ := o.strokeWidth.getD 2

def oPadding (o : SparklineOptions) : ℚ := o.padding.getD 4

def oUpColor (o : SparklineOptions) : String := o.upColor.getD ("#00C853")

def oDownColor (o : SparklineOptions) : String := o.downColor.getD ("#FF5A5A")

def oCustomColor (o : SparklineOptions) : String := o.customColor.getD ("")

def oSmooth (o : SparklineOptions) : Bool := o.smooth.getD false

def oSmoothTension (o : SparklineOptions) : ℚ := o.smoothTension.getD (1/2)

def oShowKnob (o : SparklineOptions) : Bool := o.showKnob.getD false

def oKnobSize (o : SparklineOptions) : ℚ := o.knobSize.getD 8

def oBackgroundColor (o : SparklineOptions) : String := o.backgroundColor.getD ("#000000")

def oFadeEdges (o : SparklineOptions) : Bool := o.fadeEdges.getD false

def oFadeAmount (o : SparklineOptions) : ℚ := o.fadeAmount.getD 30

/-! Value normalization (Coordinate Mapper). -/

/-- const values = prices.map(p => p[1]) -/
def valuesOf (prices : List (ℚ × ℚ)) : List ℚ := prices.map Prod.snd

/-- Math.min(...l) for a nonempty list (the source only applies it with
at least 2 values present). -/
def listMin : List ℚ → ℚ
  | [] => 0
  | x :: xs => xs.foldl min x

/-- Math.max(...l) for a nonempty list. -/
def listMax : List ℚ → ℚ
  | [] => 0
  | x :: xs => xs.foldl max x

def minOf (prices : List (ℚ × ℚ)) : ℚ := listMin (valuesOf prices)

def maxOf (prices : List (ℚ × ℚ)) : ℚ := listMax (valuesOf prices)

/-- const range = max - min || 1  (`||` replaces a zero range by 1). -/
def rangeOf (prices : List (ℚ × ℚ)) : ℚ :=
  if maxOf prices - minOf prices = 0 then 1 else maxOf prices - minOf prices

/-- const knobRadius = knobSize / 2 -/
def knobRadius (o : SparklineOptions) : ℚ := oKnobSize o / 2

/-- const basePadding = showKnob ? Math.max(padding, knobRadius + strokeWidth / 2) : padding -/
def basePadding (o : SparklineOptions) : ℚ :=
  if oShowKnob o then max (oPadding o) (knobRadius o + oStrokeWidth o / 2) else oPadding o

/-- const baseChartHeight = height - basePadding * 2 -/
def baseChartHeight (o : SparklineOptions) : ℚ := o.height - basePadding o * 2

/-- const smoothPadding = smooth ? Math.ceil(baseChartHeight * smoothTension * 0.15) : 0;
the literal 0.15 is the exact rational 3/20. -/
def smoothPadding (o : SparklineOptions) : ℚ :=
  if oSmooth o then ((⌈baseChartHeight o * oSmoothTension o * (3/20)⌉ : ℤ) : ℚ) else 0

/-- const effectivePadding = basePadding + smoothPadding -/
def effectivePadding (o : SparklineOptions) : ℚ := basePadding o + smoothPadding o

/-- const chartWidth = width - effectivePadding * 2 -/
def chartWidth (o : SparklineOptions) : ℚ := o.width - effectivePadding o * 2

/-- const chartHeight = height - effectivePadding * 2 -/
def chartHeight (o : SparklineOptions) : ℚ := o.height - effectivePadding o * 2

/-- const points = values.map((value, index) => ({ x: ..., y: ... })) -/
def samplePoints (prices : List (ℚ × ℚ)) (o : SparklineOptions) : List Point :=
  let values := valuesOf prices
  values.enum.map fun iv =>
    ⟨effectivePadding o + ((iv.1 : ℚ) / ((values.length : ℚ) - 1)) * chartWidth o,
     effectivePadding o + chartHeight o - ((iv.2 - minOf prices) / rangeOf prices) * chartHeight o⟩

/-- const isUp = values[values.length - 1] >= values[0] -/
def isUpOf (prices : List (ℚ × ℚ)) : Bool :=
  decide ((valuesOf prices).getD 0 0 ≤ (valuesOf prices).getD (prices.length - 1) 0)

/-- const strokeColor = customColor || (isUp ? upColor : downColor);
the empty string and an absent option are both falsy in JS. -/
def strokeColor (prices : List (ℚ × ℚ)) (o : SparklineOptions) : String :=
  if oCustomColor o = "" then (if isUpOf prices then oUpColor o else oDownColor o)
  else oCustomColor o

/-! Decimal string formatting. -/

/-- One decimal digit character. -/
def digitCh (n : ℕ) : Char :=
  match n % 10 with
  | 0 => '0' | 1 => '1' | 2 => '2' | 3 => '3' | 4 => '4'
  | 5 => '5' | 6 => '6' | 7 => '7' | 8 => '8' | _ => '9'

/-- Fuel-driven most-significant-first decimal digits; fuel n+1 always
suffices since n / 10 strictly decreases. -/
def natToDecAux : ℕ → ℕ → List Char
  | 0, _ => []
  | fuel+1, n => if n < 10 then [digitCh n] else natToDecAux fuel (n / 10) ++ [digitCh (n % 10)]

/-- Decimal digit characters of a natural number. -/
def natToDec (n : ℕ) : List Char := natToDecAux (n+1) n

/-- Decimal string of an integer, as JS prints integral numbers. -/
def intToDec (i : ℤ) : String :=
  String.mk ((if i < 0 then ['-'] else []) ++ natToDec i.natAbs)

/-- Number.prototype.toFixed(2): sign of the value, then the magnitude
rounded to the nearest hundredth, ties away from zero, printed with
exactly two fractional digits. -/
def toFixed2 (q : ℚ) : String :=
  let n : ℕ := (⌊|q| * 100 + 1/2⌋).toNat
  String.mk ((if q < 0 then ['-'] else []) ++ natToDec (n / 100) ++
    '.' :: (if n % 100 < 10 then ['0', digitCh (n % 100)] else natToDec (n % 100)))

/-- Multiplicity of p in n, computed with fuel n. -/
def countFacAux (p : ℕ) : ℕ → ℕ → ℕ
  | 0, _ => 0
  | fuel+1, n => if 2 ≤ p ∧ 0 < n ∧ n % p = 0 then countFacAux p fuel (n / p) + 1 else 0

def countFac (p n : ℕ) : ℕ := countFacAux p n n

/-- Default JS number-to-string conversion (template interpolation
without toFixed): integers print without a decimal point, numbers with a
finite decimal expansion print their shortest expansion.  Rationals
whose reduced denominator is not of the form 2^a·5^b have no finite
expansion and are printed here as a fraction; no interpolated quantity
of the source takes such a value on float-representable inputs. -/
def jsNumToStr (q : ℚ) : String :=
  if q.den = 1 then intToDec q.num
  else
    let a := countFac 2 q.den
    let b := countFac 5 q.den
    if q.den = 2 ^ a * 5 ^ b then
      let k := max a b
      let m := q.num.natAbs * 10 ^ k / q.den
      let frac := natToDec (m % 10 ^ k)
      String.mk ((if q.num < 0 then ['-'] else []) ++ natToDec (m / 10 ^ k) ++
        '.' :: (List.replicate (k - frac.length) '0' ++ frac))
    else intToDec q.num ++ "/" ++ String.mk (natToDec q.den)

/-- One or more digits, then a point, then exactly two digits
(the part \d+\.\d\x7b2\x7d of the spec pattern). -/
def digitsDotTwo (cs : List Char) : Bool :=
  (decide (cs.takeWhile Char.isDigit ≠ [])) &&
    (match cs.dropWhile Char.isDigit with
     | ['.', a, b] => a.isDigit && b.isDigit
     | _ => false)

/-- Decidable form of the spec pattern /^-?\d+\.\d\x7b2\x7d$/ : an
optional minus sign, one or more digits, a point, exactly two digits. -/
def matches2dp (s : String) : Bool :=
  match s.data with
  | '-' :: cs => digitsDotTwo cs
  | cs => digitsDotTwo cs

/-! Path Builder. -/

/-- The polyline builder (function straightPath):
points.map((p, i) => `M/L p.x.toFixed(2) p.y.toFixed(2)`).join(' '). -/
def straightPath (points : List Point) : String :=
  String.intercalate " " (points.enum.map fun ip =>
    (if ip.1 = 0 then "M" else "L") ++ " " ++ toFixed2 ip.2.x ++ " " ++ toFixed2 ip.2.y)

/-- First Bezier control point of segment i of catmullRomToBezier; the
truncated subtraction i - 1 at i = 0 models Math.max(0, i - 1). -/
def cp1Of (points : List Point) (tension : ℚ) (i : ℕ) : Point :=
  let p0 := points.getD (i - 1) defaultPt
  let p1 := points.getD i defaultPt
  let p2 := points.getD (i + 1) defaultPt
  ⟨p1.x + (p2.x - p0.x) * tension / 3, p1.y + (p2.y - p0.y) * tension / 3⟩

/-- Second Bezier control point of segment i of catmullRomToBezier. -/
def cp2Of (points : List Point) (tension : ℚ) (i : ℕ) : Point :=
  let p1 := points.getD i defaultPt
  let p2 := points.getD (i + 1) defaultPt
  let p3 := points.getD (min (points.length - 1) (i + 2)) defaultPt
  ⟨p2.x - (p3.x - p1.x) * tension / 3, p2.y - (p3.y - p1.y) * tension / 3⟩

/-- One ` C cp1x cp1y, cp2x cp2y, p2x p2y` curve instruction. -/
def bezierSegStr (points : List Point) (tension : ℚ) (i : ℕ) : String :=
  " C " ++ toFixed2 (cp1Of points tension i).x ++ " " ++ toFixed2 (cp1Of points tension i).y ++
  ", " ++ toFixed2 (cp2Of points tension i).x ++ " " ++ toFixed2 (cp2Of points tension i).y ++
  ", " ++ toFixed2 (points.getD (i + 1) defaultPt).x ++ " " ++ toFixed2 (points.getD (i + 1) defaultPt).y

/-- function catmullRomToBezier(points, tension = 0.5). -/
def catmullRomToBezier (points : List Point) (tension : ℚ) : String :=
  if points.length < 2 then ""
  else if points.length = 2 then
    "M " ++ toFixed2 (points.getD 0 defaultPt).x ++ " " ++ toFixed2 (points.getD 0 defaultPt).y ++
    " L " ++ toFixed2 (points.getD 1 defaultPt).x ++ " " ++ toFixed2 (points.getD 1 defaultPt).y
  else
    (List.range (points.length - 1)).foldl (fun path i => path ++ bezierSegStr points tension i)
      ("M " ++ toFixed2 (points.getD 0 defaultPt).x ++ " " ++ toFixed2 (points.getD 0 defaultPt).y)

/-! Color parsing. -/

def isHexDigitCh (c : Char) : Bool :=
  c.isDigit || (decide ('a' ≤ c) && decide (c ≤ 'f')) || (decide ('A' ≤ c) && decide (c ≤ 'F'))

def hexVal (c : Char) : ℕ :=
  if c.isDigit then c.toNat - 48
  else if decide ('a' ≤ c) && decide (c ≤ 'f') then c.toNat - 87
  else c.toNat - 55

/-- function hexToRgb(hex): /^#?([a-f\d]\x7b2\x7d)([a-f\d]\x7b2\x7d)([a-f\d]\x7b2\x7d)$/i
then parseInt of each pair, or null when the pattern fails. -/
def hexToRgb (hex : String) : Option (ℕ × ℕ × ℕ) :=
  let cs := if hex.toList.headD ' ' = '#' then hex.toList.tail else hex.toList
  match cs with
  | [a, b, c, d, e, f] =>
    if isHexDigitCh a && isHexDigitCh b && isHexDigitCh c &&
        isHexDigitCh d && isHexDigitCh e && isHexDigitCh f then
      some (hexVal a * 16 + hexVal b, hexVal c * 16 + hexVal d, hexVal e * 16 + hexVal f)
    else none
  | _ => none

/-! Overlay Compositor. -/

/-- const linePath = smooth ? catmullRomToBezier(points, smoothTension) : straightPath(points) -/
def linePath (prices : List (ℚ × ℚ)) (o : SparklineOptions) : String :=
  if oSmooth o then catmullRomToBezier (samplePoints prices o) (oSmoothTension o)
  else straightPath (samplePoints prices o)

/-- const firstPoint = points[0] -/
def firstPointOf (prices : List (ℚ × ℚ)) (o : SparklineOptions) : Point :=
  (samplePoints prices o).getD 0 defaultPt

/-- const lastPoint = points[points.length - 1] -/
def lastPointOf (prices : List (ℚ × ℚ)) (o : SparklineOptions) : Point :=
  (samplePoints prices o).getD ((samplePoints prices o).length - 1) defaultPt

/-- fillPath: the closed area outline; the two bottom-corner y values
height - effectivePadding are interpolated without toFixed. -/
def fillPath (prices : List (ℚ × ℚ)) (o : SparklineOptions) : String :=
  if o.fill then
    linePath prices o ++ " L " ++ toFixed2 (lastPointOf prices o).x ++ " " ++
    jsNumToStr (o.height - effectivePadding o) ++ " L " ++ toFixed2 (firstPointOf prices o).x ++
    " " ++ jsNumToStr (o.height - effectivePadding o) ++ " Z"
  else ""

/-- const rgbStr = rgb ? `r, g, b` : '0, 0, 0' -/
def rgbStrOf (prices : List (ℚ × ℚ)) (o : SparklineOptions) : String :=
  match hexToRgb (strokeColor prices o) with
  | some rgb => String.mk (natToDec rgb.1) ++ ", " ++ String.mk (natToDec rgb.2.1) ++
      ", " ++ String.mk (natToDec rgb.2.2)
  | none => "0, 0, 0"

/-- const knobElement = showKnob ? `  <circle ... />` : '' -/
def knobElement (prices : List (ℚ × ℚ)) (o : SparklineOptions) : String :=
  if oShowKnob o then
    "  <circle cx=\"" ++ toFixed2 (lastPointOf prices o).x ++ "\" cy=\"" ++
    toFixed2 (lastPointOf prices o).y ++ "\" r=\"" ++ jsNumToStr (knobRadius o) ++
    "\" stroke=\"" ++ strokeColor prices o ++ "\" stroke-width=\"" ++
    jsNumToStr (oStrokeWidth o) ++ "\" fill=\"" ++ oBackgroundColor o ++ "\" />"
  else ""

/-- const fadePercent = fadeAmount / 100 -/
def fadePercent (o : SparklineOptions) : ℚ := oFadeAmount o / 100

/-- const fadeLeft = fadeEdges -/
def fadeLeftFlag (o : SparklineOptions) : Bool := oFadeEdges o

/-- const fadeRight = fadeEdges && !showKnob -/
def fadeRightFlag (o : SparklineOptions) : Bool := oFadeEdges o && !oShowKnob o

/-- Left fade rectangle of the mask (empty when fadeLeft is false). -/
def leftRectStr (o : SparklineOptions) (ids : SvgIds) : String :=
  if fadeLeftFlag o then
    "<rect width=\"" ++ jsNumToStr (o.width * fadePercent o) ++ "\" height=\"" ++
    jsNumToStr o.height ++ "\" fill=\"url(#" ++ ids.fadeLeftId ++ ")\" />"
  else ""

/-- x of the fully opaque middle rectangle of the mask. -/
def middleRectX (o : SparklineOptions) : ℚ :=
  if fadeLeftFlag o then o.width * fadePercent o else 0

/-- width of the fully opaque middle rectangle of the mask. -/
def middleRectW (o : SparklineOptions) : ℚ :=
  o.width - (if fadeLeftFlag o then o.width * fadePercent o else 0) -
    (if fadeRightFlag o then o.width * fadePercent o else 0)

/-- The fully opaque middle rectangle of the mask. -/
def middleRectStr (o : SparklineOptions) : String :=
  "<rect x=\"" ++ jsNumToStr (middleRectX o) ++ "\" width=\"" ++ jsNumToStr (middleRectW o) ++
  "\" height=\"" ++ jsNumToStr o.height ++ "\" fill=\"white\" />"

/-- Right fade rectangle of the mask (empty when fadeRight is false). -/
def rightRectStr (o : SparklineOptions) (ids : SvgIds) : String :=
  if fadeRightFlag o then
    "<rect x=\"" ++ jsNumToStr (o.width * (1 - fadePercent o)) ++ "\" width=\"" ++
    jsNumToStr (o.width * fadePercent o) ++ "\" height=\"" ++ jsNumToStr o.height ++
    "\" fill=\"url(#" ++ ids.fadeRightId ++ ")\" />"
  else ""

/-- The twelve eased stops of the left fade gradient. -/
def fadeLeftStops : String :=
  "      <stop offset=\"0%\" stop-color=\"white\" stop-opacity=\"0\" />\n" ++
  "      <stop offset=\"19%\" stop-color=\"white\" stop-opacity=\"0.05\" />\n" ++
  "      <stop offset=\"34%\" stop-color=\"white\" stop-opacity=\"0.15\" />\n" ++
  "      <stop offset=\"47%\" stop-color=\"white\" stop-opacity=\"0.26\" />\n" ++
  "      <stop offset=\"56.5%\" stop-color=\"white\" stop-opacity=\"0.36\" />\n" ++
  "      <stop offset=\"65%\" stop-color=\"white\" stop-opacity=\"0.48\" />\n" ++
  "      <stop offset=\"73%\" stop-color=\"white\" stop-opacity=\"0.62\" />\n" ++
  "      <stop offset=\"80.2%\" stop-color=\"white\" stop-opacity=\"0.75\" />\n" ++
  "      <stop offset=\"86.1%\" stop-color=\"white\" stop-opacity=\"0.84\" />\n" ++
  "      <stop offset=\"91%\" stop-color=\"white\" stop-opacity=\"0.91\" />\n" ++
  "      <stop offset=\"95.2%\" stop-color=\"white\" stop-opacity=\"0.96\" />\n" ++
  "      <stop offset=\"100%\" stop-color=\"white\" stop-opacity=\"1\" />\n"

/-- The twelve eased stops of the right fade gradient. -/
def fadeRightStops : String :=
  "      <stop offset=\"0%\" stop-color=\"white\" stop-opacity=\"1\" />\n" ++
  "      <stop offset=\"4.8%\" stop-color=\"white\" stop-opacity=\"0.96\" />\n" ++
  "      <stop offset=\"9%\" stop-color=\"white\" stop-opacity=\"0.91\" />\n" ++
  "      <stop offset=\"13.9%\" stop-color=\"white\" stop-opacity=\"0.84\" />\n" ++
  "      <stop offset=\"19.8%\" stop-color=\"white\" stop-opacity=\"0.75\" />\n" ++
  "      <stop offset=\"27%\" stop-color=\"white\" stop-opacity=\"0.62\" />\n" ++
  "      <stop offset=\"35%\" stop-color=\"white\" stop-opacity=\"0.48\" />\n" ++
  "      <stop offset=\"43.5%\" stop-color=\"white\" stop-opacity=\"0.36\" />\n" ++
  "      <stop offset=\"53%\" stop-color=\"white\" stop-opacity=\"0.26\" />\n" ++
  "      <stop offset=\"66%\" stop-color=\"white\" stop-opacity=\"0.15\" />\n" ++
  "      <stop offset=\"81%\" stop-color=\"white\" stop-opacity=\"0.05\" />\n" ++
  "      <stop offset=\"100%\" stop-color=\"white\" stop-opacity=\"0\" />\n"

/-- const fadeMaskDef = fadeEdges ? `...` : '' -/
def fadeMaskDef (o : SparklineOptions) (ids : SvgIds) : String :=
  if oFadeEdges o then
    "\n    <linearGradient id=\"" ++ ids.fadeLeftId ++
    "\" x1=\"0%\" y1=\"0%\" x2=\"100%\" y2=\"0%\">\n" ++ fadeLeftStops ++
    "    </linearGradient>\n    <linearGradient id=\"" ++ ids.fadeRightId ++
    "\" x1=\"0%\" y1=\"0%\" x2=\"100%\" y2=\"0%\">\n" ++ fadeRightStops ++
    "    </linearGradient>\n    <mask id=\"" ++ ids.maskId ++ "\">\n      " ++
    leftRectStr o ids ++ "\n      " ++ middleRectStr o ++ "\n      " ++
    rightRectStr o ids ++ "\n    </mask>"
  else ""

/-- const maskAttr = fadeEdges ? ` mask="url(#maskId)"` : '' -/
def maskAttr (o : SparklineOptions) (ids : SvgIds) : String :=
  if oFadeEdges o then " mask=\"url(#" ++ ids.maskId ++ ")\"" else ""

/-- The final serialized document (the `const svg = ...` template). -/
def svgDoc (prices : List (ℚ × ℚ)) (o : SparklineOptions) (ids : SvgIds) : String :=
  "<svg width=\"" ++ jsNumToStr o.width ++ "\" height=\"" ++ jsNumToStr o.height ++
  "\" viewBox=\"0 0 " ++ jsNumToStr o.width ++ " " ++ jsNumToStr o.height ++
  "\" fill=\"none\" xmlns=\"http://www.w3.org/2000/svg\">\n" ++
  "  <defs>\n" ++
  "    <linearGradient id=\"" ++ ids.gradientId ++
  "\" x1=\"0%\" y1=\"0%\" x2=\"0%\" y2=\"100%\">\n" ++
  "      <stop offset=\"0%\" stop-color=\"rgb(" ++ rgbStrOf prices o ++
  ")\" stop-opacity=\"0.3\" />\n" ++
  "      <stop offset=\"100%\" stop-color=\"rgb(" ++ rgbStrOf prices o ++
  ")\" stop-opacity=\"0\" />\n" ++
  "    </linearGradient>" ++ fadeMaskDef o ids ++ "\n" ++
  "  </defs>\n" ++
  "  <g" ++ maskAttr o ids ++ ">\n" ++
  (if o.fill then
    "    <path d=\"" ++ fillPath prices o ++ "\" fill=\"url(#" ++ ids.gradientId ++ ")\" />"
   else "") ++ "\n" ++
  "    <path d=\"" ++ linePath prices o ++ "\" stroke=\"" ++ strokeColor prices o ++
  "\" stroke-width=\"" ++ jsNumToStr (oStrokeWidth o) ++
  "\" stroke-linecap=\"round\" stroke-linejoin=\"round\" fill=\"none\" />\n" ++
  "  </g>\n" ++
  knobElement prices o ++ "\n" ++
  "</svg>"

/-- export function generateSparklineSVG(prices, options). -/
def generateSparklineSVG (prices : List (ℚ × ℚ)) (o : SparklineOptions) (ids : SvgIds) :
    SparklineResult :=
  if prices.length < 2 then ⟨"", true⟩
  else ⟨svgDoc prices o ids, isUpOf prices⟩

/-! Geometry/identifier factoring used to state determinism up to ids. -/

/-- All identifier-independent content of one render: every slot of the
document template except the four generated reference identifiers. -/
structure SvgGeom where
  widthS : String
  heightS : String
  fillFlag : Bool
  fillPathS : String
  linePathS : String
  strokeColorS : String
  strokeWidthS : String
  rgbS : String
  knobS : String
  fadeEdgesFlag : Bool
  fadeLeftF : Bool
  fadeRightF : Bool
  fadeWS : String
  rightXS : String
  middleS : String

/-- The identifier-independent content of a render of (prices, o). -/
def svgGeom (prices : List (ℚ × ℚ)) (o : SparklineOptions) : SvgGeom where
  widthS := jsNumToStr o.width
  heightS := jsNumToStr o.height
  fillFlag := o.fill
  fillPathS := fillPath prices o
  linePathS := linePath prices o
  strokeColorS := strokeColor prices o
  strokeWidthS := jsNumToStr (oStrokeWidth o)
  rgbS := rgbStrOf prices o
  knobS := knobElement prices o
  fadeEdgesFlag := oFadeEdges o
  fadeLeftF := fadeLeftFlag o
  fadeRightF := fadeRightFlag o
  fadeWS := jsNumToStr (o.width * fadePercent o)
  rightXS := jsNumToStr (o.width * (1 - fadePercent o))
  middleS := middleRectStr o

/-- Reassembly of the document from identifier-independent content plus
the four identifiers: identifiers fill only reference slots. -/
def renderWithIds (g : SvgGeom) (ids : SvgIds) : String :=
  "<svg width=\"" ++ g.widthS ++ "\" height=\"" ++ g.heightS ++
  "\" viewBox=\"0 0 " ++ g.widthS ++ " " ++ g.heightS ++
  "\" fill=\"none\" xmlns=\"http://www.w3.org/2000/svg\">\n" ++
  "  <defs>\n" ++
  "    <linearGradient id=\"" ++ ids.gradientId ++
  "\" x1=\"0%\" y1=\"0%\" x2=\"0%\" y2=\"100%\">\n" ++
  "      <stop offset=\"0%\" stop-color=\"rgb(" ++ g.rgbS ++
  ")\" stop-opacity=\"0.3\" />\n" ++
  "      <stop offset=\"100%\" stop-color=\"rgb(" ++ g.rgbS ++
  ")\" stop-opacity=\"0\" />\n" ++
  "    </linearGradient>" ++
  (if g.fadeEdgesFlag then
    "\n    <linearGradient id=\"" ++ ids.fadeLeftId ++
    "\" x1=\"0%\" y1=\"0%\" x2=\"100%\" y2=\"0%\">\n" ++ fadeLeftStops ++
    "    </linearGradient>\n    <linearGradient id=\"" ++ ids.fadeRightId ++
    "\" x1=\"0%\" y1=\"0%\" x2=\"100%\" y2=\"0%\">\n" ++ fadeRightStops ++
    "    </linearGradient>\n    <mask id=\"" ++ ids.maskId ++ "\">\n      " ++
    (if g.fadeLeftF then
      "<rect width=\"" ++ g.fadeWS ++ "\" height=\"" ++ g.heightS ++
      "\" fill=\"url(#" ++ ids.fadeLeftId ++ ")\" />"
     else "") ++ "\n      " ++ g.middleS ++ "\n      " ++
    (if g.fadeRightF then
      "<rect x=\"" ++ g.rightXS ++ "\" width=\"" ++ g.fadeWS ++ "\" height=\"" ++
      g.heightS ++ "\" fill=\"url(#" ++ ids.fadeRightId ++ ")\" />"
     else "") ++ "\n    </mask>"
   else "") ++ "\n" ++
  "  </defs>\n" ++
  "  <g" ++ (if g.fadeEdgesFlag then " mask=\"url(#" ++ ids.maskId ++ ")\"" else "") ++ ">\n" ++
  (if g.fillFlag then
    "    <path d=\"" ++ g.fillPathS ++ "\" fill=\"url(#" ++ ids.gradientId ++ ")\" />"
   else "") ++ "\n" ++
  "    <path d=\"" ++ g.linePathS ++ "\" stroke=\"" ++ g.strokeColorS ++
  "\" stroke-width=\"" ++ g.strokeWidthS ++
  "\" stroke-linecap=\"round\" stroke-linejoin=\"round\" fill=\"none\" />\n" ++
  "  </g>\n" ++
  g.knobS ++ "\n" ++
  "</svg>"

/-! Spec-worded control point definitions (for the refinement claim on
the Catmull-Rom conversion). -/

/-- cp1 per the spec wording: p1 + (p2 - p0) * tension / 3, with the
neighbor p0 clamped to the first point at the start. -/
def specCp1 (points : List Point) (t : ℚ) (i : ℕ) : Point :=
  let p0 := if i = 0 then points.getD 0 defaultPt else points.getD (i - 1) defaultPt
  let p1 := points.getD i defaultPt
  let p2 := points.getD (i + 1) defaultPt
  ⟨p1.x + (p2.x - p0.x) * t / 3, p1.y + (p2.y - p0.y) * t / 3⟩

/-- cp2 per the spec wording: p2 - (p3 - p1) * tension / 3, with the
neighbor p3 clamped to the last point at the end. -/
def specCp2 (points : List Point) (t : ℚ) (i : ℕ) : Point :=
  let p1 := points.getD i defaultPt
  let p2 := points.getD (i + 1) defaultPt
  let p3 := if i = points.length - 2 then points.getD (points.length - 1) defaultPt
    else points.getD (i + 2) defaultPt
  ⟨p2.x - (p3.x - p1.x) * t / 3, p2.y - (p3.y - p1.y) * t / 3⟩

/-! General helper lemmas. -/

theorem foldl_min_const {c : ℚ} : ∀ xs : List ℚ, (∀ x ∈ xs, x = c) → xs.foldl min c = c := by
  intro xs
  induction xs with
  | nil => intro _; rfl
  | cons y ys ih =>
    intro h
    have hy : y = c := h y (List.mem_cons_self _ _)
    have hys : ∀ x ∈ ys, x = c := fun x hx => h x (List.mem_cons_of_mem _ hx)
    simp only [List.foldl_cons, hy, min_self]
    exact ih hys

theorem foldl_max_const {c : ℚ} : ∀ xs : List ℚ, (∀ x ∈ xs, x = c) → xs.foldl max c = c := by
  intro xs
  induction xs with
  | nil => intro _; rfl
  | cons y ys ih =>
    intro h
    have hy : y = c := h y (List.mem_cons_self _ _)
    have hys : ∀ x ∈ ys, x = c := fun x hx => h x (List.mem_cons_of_mem _ hx)
    simp only [List.foldl_cons, hy, max_self]
    exact ih hys

theorem listMin_const {c : ℚ} {l : List ℚ} (hne : l ≠ []) (h : ∀ x ∈ l, x = c) :
    listMin l = c := by
  cases l with
  | nil => exact absurd rfl hne
  | cons y ys =>
    have hy : y = c := h y (List.mem_cons_self _ _)
    have hys : ∀ x ∈ ys, x = c := fun x hx => h x (List.mem_cons_of_mem _ hx)
    simp only [listMin, hy]
    exact foldl_min_const ys hys

theorem listMax_const {c : ℚ} {l : List ℚ} (hne : l ≠ []) (h : ∀ x ∈ l, x = c) :
    listMax l = c := by
  cases l with
  | nil => exact absurd rfl hne
  | cons y ys =>
    have hy : y = c := h y (List.mem_cons_self _ _)
    have hys : ∀ x ∈ ys, x = c := fun x hx => h x (List.mem_cons_of_mem _ hx)
    simp only [listMax, hy]
    exact foldl_max_const ys hys

theorem takeWhile_all_append {α : Type} {p : α → Bool} :
    ∀ {l1 l2 : List α}, (∀ x ∈ l1, p x = true) →
      (l1 ++ l2).takeWhile p = l1 ++ l2.takeWhile p := by
  intro l1
  induction l1 with
  | nil => intro l2 _; simp
  | cons y ys ih =>
    intro l2 h
    have hy : p y = true := h y (List.mem_cons_self _ _)
    have hys : ∀ x ∈ ys, p x = true := fun x hx => h x (List.mem_cons_of_mem _ hx)
    simp only [List.cons_append, List.takeWhile_cons, hy, if_true]
    rw [ih hys]

theorem dropWhile_all_append {α : Type} {p : α → Bool} :
    ∀ {l1 l2 : List α}, (∀ x ∈ l1, p x = true) →
      (l1 ++ l2).dropWhile p = l2.dropWhile p := by
  intro l1
  induction l1 with
  | nil => intro l2 _; simp
  | cons y ys ih =>
    intro l2 h
    have hy : p y = true := h y (List.mem_cons_self _ _)
    have hys : ∀ x ∈ ys, p x = true := fun x hx => h x (List.mem_cons_of_mem _ hx)
    simp only [List.cons_append, List.dropWhile_cons, hy, if_true]
    exact ih hys

/-! Digit string lemmas. -/

theorem digitCh_isDigit (n : ℕ) : (digitCh n).isDigit = true := by
  unfold digitCh
  split <;> decide

theorem natToDecAux_digits (fuel n : ℕ) : ∀ c ∈ natToDecAux fuel n, c.isDigit = true := by
  induction fuel generalizing n with
  | zero => intro c hc; simp [natToDecAux] at hc
  | succ fuel ih =>
    intro c hc
    unfold natToDecAux at hc
    split at hc
    · simp at hc; subst hc; exact digitCh_isDigit n
    · rcases List.mem_append.mp hc with h | h
      · exact ih _ _ h
      · simp at h; subst h; exact digitCh_isDigit _

theorem natToDecAux_ne_nil (fuel n : ℕ) (h : 0 < fuel) : natToDecAux fuel n ≠ [] := by
  cases fuel with
  | zero => omega
  | succ fuel =>
    unfold natToDecAux
    split
    · simp
    · simp

theorem natToDec_ne_nil (n : ℕ) : natToDec n ≠ [] := natToDecAux_ne_nil _ _ (by omega)

theorem natToDec_digits (n : ℕ) : ∀ c ∈ natToDec n, c.isDigit = true := natToDecAux_digits _ _

theorem natToDecAux_lt_ten (fuel n : ℕ) (hf : 0 < fuel) (h : n < 10) :
    natToDecAux fuel n = [digitCh n] := by
  cases fuel with
  | zero => omega
  | succ fuel => unfold natToDecAux; rw [if_pos h]

theorem natToDec_two_digits (m : ℕ) (h10 : 10 ≤ m) (h100 : m < 100) :
    natToDec m = [digitCh (m / 10), digitCh (m % 10)] := by
  unfold natToDec natToDecAux
  rw [if_neg (by omega)]
  rw [natToDecAux_lt_ten m (m / 10) (by omega) (by omega)]
  rfl

/-- The fractional part of toFixed2 is exactly two digit characters. -/
theorem toFixed2_frac_shape (n : ℕ) :
    ∃ a b, (if n % 100 < 10 then ['0', digitCh (n % 100)] else natToDec (n % 100)) = [a, b] ∧
      a.isDigit = true ∧ b.isDigit = true := by
  by_cases h : n % 100 < 10
  · exact ⟨'0', digitCh (n % 100), by rw [if_pos h], by decide, digitCh_isDigit _⟩
  · refine ⟨digitCh (n % 100 / 10), digitCh (n % 100 % 10), ?_, digitCh_isDigit _, digitCh_isDigit _⟩
    rw [if_neg h]
    exact natToDec_two_digits _ (by omega) (Nat.mod_lt _ (by omega))

theorem matches2dp_mk_dash (cs : List Char) :
    matches2dp (String.mk ('-' :: cs)) = digitsDotTwo cs := rfl

theorem matches2dp_mk_of_head_ne (c : Char) (cs : List Char) (h : ¬ c = '-') :
    matches2dp (String.mk (c :: cs)) = digitsDotTwo (c :: cs) := by
  unfold matches2dp
  split
  · rename_i heq
    exact absurd (List.head_eq_of_cons_eq heq.symm) fun hc => h hc.symm
  · rfl

theorem digitsDotTwo_shape (L : List Char) (hLd : ∀ c ∈ L, c.isDigit = true)
    (hLn : L ≠ []) (a b : Char) (ha : a.isDigit = true) (hb : b.isDigit = true) :
    digitsDotTwo (L ++ '.' :: [a, b]) = true := by
  have hdot : Char.isDigit '.' = false := by decide
  unfold digitsDotTwo
  rw [takeWhile_all_append hLd, dropWhile_all_append hLd]
  simp [List.takeWhile_cons, List.dropWhile_cons, hdot, ha, hb, hLn]

/-- Core of the two-decimal format contract: every string produced by
the fixed two-decimal formatter matches /^-?\d+\.\d\x7b2\x7d$/. -/
theorem matches2dp_toFixed2 (q : ℚ) : matches2dp (toFixed2 q) = true := by
  simp only [toFixed2]
  obtain ⟨a, b, hab, ha, hb⟩ := toFixed2_frac_shape ((⌊|q| * 100 + 1/2⌋).toNat)
  rw [hab]
  set L := natToDec ((⌊|q| * 100 + 1/2⌋).toNat / 100) with hL
  have hLd : ∀ c ∈ L, Char.isDigit c = true := hL ▸ natToDec_digits _
  have hLn : L ≠ [] := hL ▸ natToDec_ne_nil _
  by_cases hq : q < 0
  · rw [if_pos hq]
    show matches2dp (String.mk ('-' :: (L ++ '.' :: [a, b]))) = true
    rw [matches2dp_mk_dash]
    exact digitsDotTwo_shape L hLd hLn a b ha hb
  · rw [if_neg hq]
    show matches2dp (String.mk (L ++ '.' :: [a, b])) = true
    obtain ⟨c, L', hcL⟩ : ∃ c L', L = c :: L' := by
      cases hLl : L with
      | nil => exact absurd hLl hLn
      | cons c L' => exact ⟨c, L', rfl⟩
    have hcd : c.isDigit = true := hLd c (hcL ▸ List.mem_cons_self _ _)
    have hcne : ¬ c = '-' := by
      intro hc
      rw [hc] at hcd
      exact absurd hcd (by decide)
    rw [hcL, List.cons_append, matches2dp_mk_of_head_ne c _ hcne, ← List.cons_append, ← hcL]
    exact digitsDotTwo_shape L hLd hLn a b ha hb

/-! Program-level helper lemmas. -/

/-- The smoothing compensation is nonnegative whenever the tension is
nonnegative and twice the base padding fits within the height. -/
theorem smoothPadding_nonneg_of (o : SparklineOptions) (ht : 0 ≤ oSmoothTension o)
    (hh : basePadding o * 2 ≤ o.height) : 0 ≤ smoothPadding o := by
  unfold smoothPadding
  split
  · have h1 : (0 : ℚ) ≤ baseChartHeight o := by
      unfold baseChartHeight
      linarith
    have hx : (0 : ℚ) ≤ baseChartHeight o * oSmoothTension o * (3/20) :=
      mul_nonneg (mul_nonneg h1 ht) (by norm_num)
    exact_mod_cast Int.ceil_nonneg hx
  · exact le_refl 0

/-! Concrete fixtures. -/

def sampleIds : SvgIds :=
  ⟨"gradient-a1b2c3d4e", "fade-mask-a1b2c3d4e", "fade-left-a1b2c3d4e", "fade-right-a1b2c3d4e"⟩

/-- The spec scenario [[0,150],[1,100]] with \x7bwidth:100,height:50,fill:true\x7d. -/
def twoPrices : List (ℚ × ℚ) := [(0, 150), (1, 100)]

def twoOpts : SparklineOptions := { width := 100, height := 50, fill := true }

def flatPrices : List (ℚ × ℚ) := [(0, 100), (1, 100)]

def flatOpts : SparklineOptions := { width := 100, height := 50, fill := false }

def monoOpts : SparklineOptions := { width := 100, height := 50, fill := false }

def knobOpts1 : SparklineOptions :=
  { width := 100, height := 100, fill := false, strokeWidth := some 0,
    smooth := some true, smoothTension := some 1, showKnob := some true,
    knobSize := some (66/5) }

def knobOpts2 : SparklineOptions := { knobOpts1 with knobSize := some (67/5) }

def fadeKnobOpts : SparklineOptions :=
  { width := 100, height := 50, fill := false, showKnob := some true,
    fadeEdges := some true }

def badColorOpts : SparklineOptions :=
  { width := 100, height := 50, fill := true, customColor := some ("red") }

def degenOpts : SparklineOptions :=
  { width := 100, height := 0, fill := false, smooth := some true,
    smoothTension := some 1 }

def cpts3 : List Point := [⟨0, 0⟩, ⟨1, 1⟩, ⟨2, 0⟩]

def cpts2 : List Point := [⟨0, 0⟩, ⟨1, 1⟩]

/-! Claim C1. -/

/-- C1 (counterexample): on the flat series [(0,100),(1,100)] with
width 100, height 50 and default padding 4, every mapped y is 46, the
bottom edge of the plotting area, while the vertical midpoint of the
plotting area is 25 — the flat line is not rendered at the midpoint. -/
theorem c1_flat_not_midpoint_counterexample :
    (samplePoints flatPrices flatOpts).map Point.y = [46, 46] ∧
    effectivePadding flatOpts + chartHeight flatOpts / 2 = 25 ∧
    ¬ ∀ pt ∈ samplePoints flatPrices flatOpts,
        pt.y = effectivePadding flatOpts + chartHeight flatOpts / 2 := by
  refine ⟨?_, ?_, ?_⟩ <;> with_unfolding_all decide

/-- C1 (amended): for a flat series the zero range is substituted by 1,
no division by zero occurs, and the line renders as a horizontal path at
the bottom edge of the plotting area: every point has
y = height - effectivePadding. -/
theorem c1_flat_series_bottom_edge (prices : List (ℚ × ℚ)) (o : SparklineOptions) (c : ℚ)
    (h2 : 2 ≤ prices.length) (hflat : ∀ pr ∈ prices, pr.2 = c) :
    rangeOf prices = 1 ∧
    ∀ pt ∈ samplePoints prices o, pt.y = o.height - effectivePadding o := by
  have hvals : ∀ v ∈ valuesOf prices, v = c := by
    intro v hv
    rcases List.mem_map.mp hv with ⟨pr, hpr, hv2⟩
    rw [← hv2]
    exact hflat pr hpr
  have hne : valuesOf prices ≠ [] := by
    have hlen : (valuesOf prices).length = prices.length := by
      simp [valuesOf]
    intro h
    rw [h] at hlen
    simp at hlen
    omega
  have hmin : minOf prices = c := listMin_const hne hvals
  have hmax : maxOf prices = c := listMax_const hne hvals
  have hrange : rangeOf prices = 1 := by
    unfold rangeOf
    rw [hmin, hmax]
    simp
  refine ⟨hrange, ?_⟩
  intro pt hpt
  simp only [samplePoints] at hpt
  rcases List.mem_map.mp hpt with ⟨iv, hiv, hpt2⟩
  rcases iv with ⟨i, v⟩
  have hvc : v = c := by
    have h := List.mem_enum hiv
    exact hvals _ (h.2 ▸ List.getElem_mem h.1)
  rw [← hpt2]
  show effectivePadding o + chartHeight o -
      ((v - minOf prices) / rangeOf prices) * chartHeight o = o.height - effectivePadding o
  rw [hvc, hmin, hrange, chartHeight]
  ring

/-- C1 witness at the concrete flat series. -/
theorem c1_witness :
    rangeOf flatPrices = 1 ∧
    ∀ pt ∈ samplePoints flatPrices flatOpts,
      pt.y = flatOpts.height - effectivePadding flatOpts :=
  c1_flat_series_bottom_edge flatPrices flatOpts 100
    (by with_unfolding_all decide) (by with_unfolding_all decide)

/-! Claim C2. -/

/-- C2 (counterexample): in the spec scenario the fill outline corner y
(height - effectivePadding = 46) is interpolated without toFixed: the
emitted token is "46", which does not match /^-?\d+\.\d\x7b2\x7d$/. -/
theorem c2_fill_corner_counterexample :
    fillPath twoPrices twoOpts = "M 4.00 4.00 L 96.00 46.00 L 96.00 46 L 4.00 46 Z" ∧
    jsNumToStr (twoOpts.height - effectivePadding twoOpts) = "46" ∧
    matches2dp "46" = false := by
  refine ⟨?_, ?_, ?_⟩ <;> with_unfolding_all decide

/-- C2 (amended): every coordinate emitted through the fixed
two-decimal formatter — all path point coordinates, Bezier control
points and the marker center — matches /^-?\d+\.\d\x7b2\x7d$/; the raw
interpolations (fill corner y, marker radius, mask rectangle positions)
are exempt. -/
theorem c2_toFixed2_coordinates_match (prices : List (ℚ × ℚ)) (o : SparklineOptions) :
    (∀ q : ℚ, matches2dp (toFixed2 q) = true) ∧
    ∀ pt ∈ samplePoints prices o,
      matches2dp (toFixed2 pt.x) = true ∧ matches2dp (toFixed2 pt.y) = true :=
  ⟨matches2dp_toFixed2, fun _ _ => ⟨matches2dp_toFixed2 _, matches2dp_toFixed2 _⟩⟩

/-- C2 witness at the concrete scenario. -/
theorem c2_witness :
    matches2dp (toFixed2 ((samplePoints twoPrices twoOpts).getD 0 defaultPt).x) = true :=
  ((c2_toFixed2_coordinates_match twoPrices twoOpts).2
    ((samplePoints twoPrices twoOpts).getD 0 defaultPt)
    (by with_unfolding_all decide)).1

/-! Claim C3. -/

/-- C3: fewer than 2 samples yields exactly the sentinel
\x7b svg: "", isUp: true \x7d, for every configuration and ids. -/
theorem c3_short_input_sentinel (prices : List (ℚ × ℚ)) (o : SparklineOptions)
    (ids : SvgIds) (h : prices.length < 2) :
    generateSparklineSVG prices o ids = ⟨"", true⟩ := by
  unfold generateSparklineSVG
  rw [if_pos h]

/-- C3 witness on a one-sample input. -/
theorem c3_witness : generateSparklineSVG [(0, 5)] twoOpts sampleIds = ⟨"", true⟩ :=
  c3_short_input_sentinel _ _ _ (by decide)

/-! Claim C4. -/

/-- C4: with at least 2 samples, isUp is true exactly when the last
sample value is greater than or equal to the first (non-strict). -/
theorem c4_isUp_iff_last_ge_first (prices : List (ℚ × ℚ)) (o : SparklineOptions)
    (ids : SvgIds) (h2 : 2 ≤ prices.length) (x y : ℚ × ℚ)
    (hx : prices.head? = some x) (hy : prices.getLast? = some y) :
    ((generateSparklineSVG prices o ids).isUp = true ↔ x.2 ≤ y.2) := by
  unfold generateSparklineSVG
  rw [if_neg (by omega : ¬ prices.length < 2)]
  show (isUpOf prices = true ↔ x.2 ≤ y.2)
  unfold isUpOf
  rw [decide_eq_true_iff]
  obtain ⟨tl, htl⟩ := List.head?_eq_some_iff.mp hx
  have h0 : (valuesOf prices).getD 0 0 = x.2 := by
    rw [htl]
    rfl
  have hlast : (valuesOf prices).getD (prices.length - 1) 0 = y.2 := by
    have h1 : prices[prices.length - 1]? = some y := by
      rw [← List.getLast?_eq_getElem?]
      exact hy
    unfold valuesOf
    rw [List.getD_eq_getElem?_getD, List.getElem?_map, h1]
    rfl
  rw [h0, hlast]

/-- C4 witness at the concrete falling scenario. -/
theorem c4_witness :
    ((generateSparklineSVG twoPrices twoOpts sampleIds).isUp = true ↔ (150 : ℚ) ≤ 100) :=
  c4_isUp_iff_last_ge_first twoPrices twoOpts sampleIds (by decide)
    (0, 150) (1, 100) rfl rfl

/-! Claim C5. -/

/-- C5: with fadeEdges and showKnob both on, the right-edge fade is
suppressed (no right fade rectangle; the fully opaque middle rectangle
reaches the right canvas edge) while the left-edge fade is applied. -/
theorem c5_fade_with_knob (o : SparklineOptions) (ids : SvgIds)
    (hf : oFadeEdges o = true) (hk : oShowKnob o = true) :
    fadeLeftFlag o = true ∧ fadeRightFlag o = false ∧
    rightRectStr o ids = "" ∧
    leftRectStr o ids =
      "<rect width=\"" ++ jsNumToStr (o.width * fadePercent o) ++ "\" height=\"" ++
      jsNumToStr o.height ++ "\" fill=\"url(#" ++ ids.fadeLeftId ++ ")\" />" ∧
    middleRectX o + middleRectW o = o.width := by
  have hl : fadeLeftFlag o = true := hf
  have hr : fadeRightFlag o = false := by
    unfold fadeRightFlag
    rw [hf, hk]
    rfl
  refine ⟨hl, hr, ?_, ?_, ?_⟩
  · simp [rightRectStr, hr]
  · simp [leftRectStr, hl]
  · unfold middleRectX middleRectW
    rw [hl, hr]
    simp

/-- C5 witness at a concrete fade-plus-knob configuration. -/
theorem c5_witness :
    fadeLeftFlag fadeKnobOpts = true ∧ fadeRightFlag fadeKnobOpts = false ∧
    rightRectStr fadeKnobOpts sampleIds = "" ∧
    leftRectStr fadeKnobOpts sampleIds =
      "<rect width=\"" ++ jsNumToStr (fadeKnobOpts.width * fadePercent fadeKnobOpts) ++
      "\" height=\"" ++ jsNumToStr fadeKnobOpts.height ++ "\" fill=\"url(#" ++
      sampleIds.fadeLeftId ++ ")\" />" ∧
    middleRectX fadeKnobOpts + middleRectW fadeKnobOpts = fadeKnobOpts.width :=
  c5_fade_with_knob fadeKnobOpts sampleIds (by decide) (by decide)

/-! Claim C6. -/

/-- C6 (counterexample): knobOpts2 differs from knobOpts1 only by a
larger knobSize (13.4 over 13.2), yet its effective padding is smaller
(19.7 over 20.6): the ceiling of the smoothing compensation drops by a
full unit while the base padding grows by 0.1. -/
theorem c6_counterexample :
    knobOpts2 = { knobOpts1 with knobSize := some (67/5) } ∧
    oKnobSize knobOpts1 < oKnobSize knobOpts2 ∧
    effectivePadding knobOpts2 < effectivePadding knobOpts1 := by
  refine ⟨rfl, ?_, ?_⟩ <;> with_unfolding_all decide

/-- C6 (amended): the base padding is monotone in knobSize; with
smoothing off the effective padding is monotone in knobSize; and
enabling smooth never decreases the effective padding provided the
tension is nonnegative and twice the base padding fits the height.  With
smoothing on, a larger knobSize can decrease the effective padding. -/
theorem c6_padding_monotonicity_amended (o : SparklineOptions) (k1 k2 : ℚ) :
    (k1 ≤ k2 → basePadding { o with knobSize := some k1 } ≤
      basePadding { o with knobSize := some k2 }) ∧
    (k1 ≤ k2 → oSmooth o = false →
      effectivePadding { o with knobSize := some k1 } ≤
        effectivePadding { o with knobSize := some k2 }) ∧
    (0 ≤ oSmoothTension o → basePadding o * 2 ≤ o.height →
      effectivePadding { o with smooth := some false } ≤
        effectivePadding { o with smooth := some true }) := by
  have hbase : ∀ h12 : k1 ≤ k2, basePadding { o with knobSize := some k1 } ≤
      basePadding { o with knobSize := some k2 } := by
    intro h12
    unfold basePadding knobRadius oKnobSize oShowKnob oPadding oStrokeWidth
    by_cases hsk : (o.showKnob.getD false) = true
    · rw [if_pos hsk, if_pos hsk]
      exact max_le_max (le_refl _) (by simp only [Option.getD_some]; linarith)
    · rw [if_neg hsk, if_neg hsk]
  refine ⟨hbase, ?_, ?_⟩
  · intro h12 hsm
    have hsm1 : oSmooth { o with knobSize := some k1 } = false := hsm
    have hsm2 : oSmooth { o with knobSize := some k2 } = false := hsm
    have hz1 : smoothPadding { o with knobSize := some k1 } = 0 := by
      unfold smoothPadding
      rw [hsm1]
      rfl
    have hz2 : smoothPadding { o with knobSize := some k2 } = 0 := by
      unfold smoothPadding
      rw [hsm2]
      rfl
    unfold effectivePadding
    rw [hz1, hz2]
    simpa using hbase h12
  · intro ht hh
    have hz : smoothPadding { o with smooth := some false } = 0 := by
      unfold smoothPadding oSmooth
      rfl
    have hbp1 : basePadding { o with smooth := some false } = basePadding o := rfl
    have hnn : 0 ≤ smoothPadding { o with smooth := some true } :=
      smoothPadding_nonneg_of _ ht hh
    have hbp : basePadding { o with smooth := some true } = basePadding o := rfl
    unfold effectivePadding
    rw [hz, hbp1, hbp, add_zero]
    linarith

/-- C6 witness at a concrete configuration and knob sizes 1 ≤ 2. -/
theorem c6_witness :
    basePadding { monoOpts with knobSize := some 1 } ≤
      basePadding { monoOpts with knobSize := some 2 } ∧
    effectivePadding { monoOpts with knobSize := some 1 } ≤
      effectivePadding { monoOpts with knobSize := some 2 } ∧
    effectivePadding { monoOpts with smooth := some false } ≤
      effectivePadding { monoOpts with smooth := some true } := by
  obtain ⟨h1, h2, h3⟩ := c6_padding_monotonicity_amended monoOpts 1 2
  exact ⟨h1 (by with_unfolding_all decide),
    h2 (by with_unfolding_all decide) (by decide),
    h3 (by with_unfolding_all decide) (by with_unfolding_all decide)⟩

/-! Claim C7. -/

/-- C7: the emitted Catmull-Rom control points satisfy
cp1 = p1 + (p2 - p0)·tension/3 and cp2 = p2 - (p3 - p1)·tension/3 with
p0 clamped to the first point at the start and p3 clamped to the last
point at the end; for exactly 2 points the builder falls back to the
straight segment between them. -/
theorem c7_catmullRom_refines_spec (points : List Point) (t : ℚ) :
    (∀ i, i < points.length - 1 →
      cp1Of points t i = specCp1 points t i ∧ cp2Of points t i = specCp2 points t i) ∧
    (points.length = 2 → catmullRomToBezier points t = straightPath points) := by
  constructor
  · intro i hi
    constructor
    · cases i with
      | zero => rfl
      | succ j => rfl
    · unfold cp2Of specCp2
      by_cases hend : i = points.length - 2
      · have hmin : min (points.length - 1) (i + 2) = points.length - 1 := by omega
        rw [hmin, if_pos hend]
      · have hmin : min (points.length - 1) (i + 2) = i + 2 := by omega
        rw [hmin, if_neg hend]
  · intro h2
    obtain ⟨a, b, hab⟩ := List.length_eq_two.mp h2
    subst hab
    show catmullRomToBezier [a, b] t = straightPath [a, b]
    unfold catmullRomToBezier
    rw [if_neg (by simp), if_pos (by simp)]
    apply String.ext
    show ("M " ++ toFixed2 a.x ++ " " ++ toFixed2 a.y ++ " L " ++
      toFixed2 b.x ++ " " ++ toFixed2 b.y).data =
      (("M" ++ " " ++ toFixed2 a.x ++ " " ++ toFixed2 a.y) ++ " " ++
        ("L" ++ " " ++ toFixed2 b.x ++ " " ++ toFixed2 b.y)).data
    have hM : ("M " : String).data = ['M', ' '] := rfl
    have hM1 : ("M" : String).data = ['M'] := rfl
    have hSp : (" " : String).data = [' '] := rfl
    have hL : (" L " : String).data = [' ', 'L', ' '] := rfl
    have hL1 : ("L" : String).data = ['L'] := rfl
    simp [String.data_append, hM, hM1, hSp, hL, hL1]

/-- C7 witness on a concrete 3-point and a concrete 2-point sequence. -/
theorem c7_witness :
    (cp1Of cpts3 1 0 = specCp1 cpts3 1 0 ∧ cp2Of cpts3 1 0 = specCp2 cpts3 1 0) ∧
    catmullRomToBezier cpts2 1 = straightPath cpts2 :=
  ⟨(c7_catmullRom_refines_spec cpts3 1).1 0 (by decide),
   (c7_catmullRom_refines_spec cpts2 1).2 (by decide)⟩

/-! Claim C8. -/

/-- C8: the render is deterministic up to the opaque identifiers: the
trend flag does not depend on the identifiers at all, and the document
is the fixed identifier-free geometry of (prices, options) with the
identifiers substituted into reference slots only. -/
theorem c8_deterministic_up_to_ids (prices : List (ℚ × ℚ)) (o : SparklineOptions)
    (ids1 ids2 : SvgIds) :
    (generateSparklineSVG prices o ids1).isUp = (generateSparklineSVG prices o ids2).isUp ∧
    (generateSparklineSVG prices o ids1).svg =
      (if prices.length < 2 then "" else renderWithIds (svgGeom prices o) ids1) := by
  unfold generateSparklineSVG
  constructor
  · split <;> rfl
  · split <;> rfl

/-! Claim C9. -/

/-- C9: when the resolved stroke color fails to parse as a hex color,
the gradient falls back to "0, 0, 0" and the render still returns the
complete document — never an error, never an empty result. -/
theorem c9_malformed_color_fallback (prices : List (ℚ × ℚ)) (o : SparklineOptions)
    (ids : SvgIds) (h2 : 2 ≤ prices.length)
    (hbad : hexToRgb (strokeColor prices o) = none) :
    rgbStrOf prices o = "0, 0, 0" ∧
    generateSparklineSVG prices o ids = ⟨svgDoc prices o ids, isUpOf prices⟩ ∧
    (generateSparklineSVG prices o ids).svg ≠ "" := by
  have hr : rgbStrOf prices o = "0, 0, 0" := by
    unfold rgbStrOf
    rw [hbad]
  have hg : generateSparklineSVG prices o ids = ⟨svgDoc prices o ids, isUpOf prices⟩ := by
    unfold generateSparklineSVG
    rw [if_neg (by omega : ¬ prices.length < 2)]
  refine ⟨hr, hg, ?_⟩
  rw [hg]
  show svgDoc prices o ids ≠ ""
  intro hempty
  have hlen : (svgDoc prices o ids).length = 0 := by
    rw [hempty]
    rfl
  unfold svgDoc at hlen
  rw [String.length_append] at hlen
  have h6 : ("</svg>" : String).length = 6 := rfl
  omega

/-- C9 witness: customColor "red" does not parse, the render completes. -/
theorem c9_witness :
    rgbStrOf twoPrices badColorOpts = "0, 0, 0" ∧
    generateSparklineSVG twoPrices badColorOpts sampleIds =
      ⟨svgDoc twoPrices badColorOpts sampleIds, isUpOf twoPrices⟩ ∧
    (generateSparklineSVG twoPrices badColorOpts sampleIds).svg ≠ "" :=
  c9_malformed_color_fallback twoPrices badColorOpts sampleIds (by decide) (by decide)

/-! Claim C10. -/

/-- C10 (counterexample): with height 0, default padding 4, smoothing on
and tension 1, the smoothing compensation is ⌈-8·0.15⌉ = -1 and the
effective padding 3 drops below the configured base padding 4. -/
theorem c10_counterexample : effectivePadding degenOpts < oPadding degenOpts := by
  with_unfolding_all decide

/-- C10 (amended): the effective padding is at least the configured
base padding whenever the tension is nonnegative and twice the
knob-adjusted base padding fits within the height. -/
theorem c10_effectivePadding_ge_base (o : SparklineOptions)
    (ht : 0 ≤ oSmoothTension o) (hh : basePadding o * 2 ≤ o.height) :
    oPadding o ≤ effectivePadding o := by
  have h1 : oPadding o ≤ basePadding o := by
    unfold basePadding
    split
    · exact le_max_left _ _
    · exact le_refl _
  have h2 : 0 ≤ smoothPadding o := smoothPadding_nonneg_of o ht hh
  unfold effectivePadding
  linarith

/-- C10 witness at a concrete benign configuration. -/
theorem c10_witness : oPadding monoOpts ≤ effectivePadding monoOpts :=
  c10_effectivePadding_ge_base monoOpts (by with_unfolding_all decide)
    (by with_unfolding_all decide)

end CryptoChart
